import Mathlib

/-!
# Verification of the `gpui-plot` axes/grid coordinate engine

Shallow embedding of the coordinate-transform and interaction core of the
repository (files `src/geometry/axis.rs`, `src/figure/axes/model.rs`,
`src/figure/grid.rs`, `src/figure/plot.rs`).

Modelling conventions:
* Rust `f64`/`f32` arithmetic is idealised as exact rational (`ℚ`) arithmetic;
  the spec's "within floating tolerance" statements become exact equalities.
  The `as f32` truncation in `AxisRange::transform` and the NaN sentinel that
  `AxisRangePixels::from_bounds` stores into `pixels_per_element` (overwritten
  by `update_scale` before use) are likewise idealised away: `ℚ` has no NaN,
  so the sentinel is modelled by `0`.
* `gpui::Point<f64>` / `gpui::Size<f64>` become pairs of rationals.
* The lazy Rust iterator `iter_step_by` is modelled with an explicit fuel
  counter (`stepListFuel`); running out of fuel returns `none`, so divergence
  of the source loop is observable as "no fuel suffices".
-/

namespace GpuiPlot

/-- Componentwise subtraction of `gpui::Point<f64>` values. -/
def psub (a b : ℚ × ℚ) : ℚ × ℚ := (a.1 - b.1, a.2 - b.2)

/-- Componentwise addition of `gpui::Point<f64>` values. -/
def padd (a b : ℚ × ℚ) : ℚ × ℚ := (a.1 + b.1, a.2 + b.2)

/-- Scalar multiplication `Point<f64> * f64` (componentwise, as in gpui). -/
def pscale (a : ℚ × ℚ) (k : ℚ) : ℚ × ℚ := (a.1 * k, a.2 * k)

/-- Embeds `AxisRange<T>` from `src/geometry/axis.rs` (lines 200-205), instantiated at
`T = f64` (so `to_f64`/`from_f64` are the identity): a base value plus two
offsets `min_to_base`, `max_to_base`. -/
structure AxisRange where
  base : ℚ
  min_to_base : ℚ
  max_to_base : ℚ
deriving Repr, DecidableEq

namespace AxisRange

/-- Embeds `AxisRange::min` (axis.rs line 236): `base + from_f64(min_to_base)`. -/
def min (r : AxisRange) : ℚ := r.base + r.min_to_base

/-- Embeds `AxisRange::max` (axis.rs line 239): `base + from_f64(max_to_base)`. -/
def max (r : AxisRange) : ℚ := r.base + r.max_to_base

/-- Embeds `AxisRange::new_with_base` (axis.rs lines 216-222). -/
def new_with_base (base mn mx : ℚ) : AxisRange :=
  { base := base, min_to_base := mn - base, max_to_base := mx - base }

/-- Embeds `AxisRange::new` (axis.rs lines 212-215): the base is
`from_f64((max - min).to_f64() / 2.0)`, i.e. the half-width of the interval. -/
def new (mn mx : ℚ) : AxisRange :=
  new_with_base ((mx - mn) / 2) mn mx

/-- Embeds `AxisRange::new_with_base_f64` (axis.rs lines 223-229): offsets given
directly. -/
def new_with_base_f64 (base mn mx : ℚ) : AxisRange :=
  { base := base, min_to_base := mn, max_to_base := mx }

/-- Embeds `AxisRange::contains` (axis.rs lines 243-245). -/
def contains (r : AxisRange) (v : ℚ) : Bool :=
  decide (r.min ≤ v) && decide (v ≤ r.max)

/-- Embeds `AxisRange::size_in_f64` (axis.rs lines 246-248). -/
def size_in_f64 (r : AxisRange) : ℚ := r.max_to_base - r.min_to_base

/-- Embeds `f64::partial_cmp`, which is total on `ℚ` (no NaN), so it always returns `some`;
mirrors the `Option<Ordering>` shape of the Rust call sites. -/
def partialCmp (a b : ℚ) : Option Ordering :=
  if a < b then some Ordering.lt
  else if a = b then some Ordering.eq
  else some Ordering.gt

/-- Embeds `AxisRange::union` (axis.rs lines 295-313): picks the smaller base, the
smaller min and the larger max through `partial_cmp`, then rebuilds with
`new_with_base`; the `?` early-returns (`none`) are written as explicit
matches. -/
def union (self other : AxisRange) : Option AxisRange :=
  match partialCmp self.base other.base with
  | none => none
  | some bc =>
    let base := match bc with
      | Ordering.lt => self.base
      | Ordering.gt => other.base
      | Ordering.eq => self.base
    match partialCmp self.min other.min with
    | none => none
    | some mc =>
      let mn := match mc with
        | Ordering.lt => self.min
        | Ordering.gt => other.min
        | Ordering.eq => self.min
      match partialCmp self.max other.max with
      | none => none
      | some xc =>
        let mx := match xc with
          | Ordering.lt => other.max
          | Ordering.gt => self.max
          | Ordering.eq => self.max
        some (new_with_base base mn mx)

end AxisRange

/-- Embeds `AxisRangePixels` (axis.rs lines 154-160): a pixel interval plus the
cached `pixels_per_element` scale.  `from_bounds` stores a NaN sentinel into
the scale; `ℚ` has no NaN, so the sentinel is `0` here (always overwritten by
`update_scale` before any transform uses it). -/
structure AxisRangePixels where
  min : ℚ
  max : ℚ
  size : ℚ
  pixels_per_element : ℚ
deriving Repr, DecidableEq

namespace AxisRangePixels

/-- Embeds `AxisRangePixels::from_bounds` (axis.rs lines 162-169). -/
def from_bounds (mn mx size : ℚ) : AxisRangePixels :=
  { min := mn, max := mx, size := size, pixels_per_element := 0 }

end AxisRangePixels

namespace AxisRange

/-- Embeds `AxisRange::pixels_per_element` (axis.rs lines 250-252). -/
def pixels_per_element (r : AxisRange) (bounds : AxisRangePixels) : ℚ :=
  bounds.size / r.size_in_f64

/-- Embeds `AxisRange::elements_per_pixels` (axis.rs lines 254-256). -/
def elements_per_pixels (r : AxisRange) (delta : ℚ) (bounds : AxisRangePixels) : ℚ :=
  delta * r.size_in_f64 / bounds.size

/-- Embeds `AxisRange::transform` (axis.rs lines 258-262): data value to pixel
position (the final `as f32` truncation is idealised away). -/
def transform (r : AxisRange) (bounds : AxisRangePixels) (value : ℚ) : ℚ :=
  (value - r.min) * bounds.pixels_per_element + bounds.min

/-- Embeds `AxisRange::transform_reverse` (axis.rs lines 264-269): pixel position
back to data value, reusing the cached scale. -/
def transform_reverse (r : AxisRange) (bounds : AxisRangePixels) (value : ℚ) : ℚ :=
  r.min + (value - bounds.min) / bounds.pixels_per_element

/-- Embeds `AxisRange::transform_reverse_f64` (axis.rs lines 270-272): like
`transform_reverse` but yields a base-relative offset. -/
def transform_reverse_f64 (r : AxisRange) (bounds : AxisRangePixels) (value : ℚ) : ℚ :=
  r.min_to_base + (value - bounds.min) / bounds.pixels_per_element

end AxisRange

/-- Embeds `zoom_with_point` (src/figure/axes/model.rs lines 194-217): shift so the
pivot is at the origin, scale both corners, shift back. -/
def zoom_with_point (zoom_point min_point max_point : ℚ × ℚ) (zoom_factor : ℚ) :
    (ℚ × ℚ) × (ℚ × ℚ) :=
  let min_shifted := psub min_point zoom_point
  let max_shifted := psub max_point zoom_point
  let min_zoomed := pscale min_shifted zoom_factor
  let max_zoomed := pscale max_shifted zoom_factor
  (padd zoom_point min_zoomed, padd zoom_point max_zoomed)

/-- One iteration of the source's `test_zoom_with_point_series` loop
(model.rs lines 250-254): feed the current `(min, max)` through
`zoom_with_point`. -/
def zoom_step (zoom_point : ℚ × ℚ) (st : (ℚ × ℚ) × (ℚ × ℚ)) (f : ℚ) :
    (ℚ × ℚ) × (ℚ × ℚ) :=
  zoom_with_point zoom_point st.1 st.2 f

/-- Folding `zoom_with_point` over a list of zoom factors with a fixed pivot,
as in the source's `test_zoom_with_point_series` (model.rs lines 243-263). -/
def zoom_seq (zoom_point : ℚ × ℚ) (factors : List ℚ) (st : (ℚ × ℚ) × (ℚ × ℚ)) :
    (ℚ × ℚ) × (ℚ × ℚ) :=
  factors.foldl (zoom_step zoom_point) st

/-- Number of values the `iter_step_by` loop yields: `0` when the start is
already past the max, else `⌊(max - cur)/step⌋ + 1` (positive step). -/
def natSteps (maxv s cur : ℚ) : ℕ :=
  if maxv < cur then 0 else (⌊(maxv - cur) / s⌋).toNat + 1

/-- Fuel model of the `std::iter::from_fn` loop inside
`AxisRange::iter_step_by` (axis.rs lines 273-283): `none` means the fuel ran
out before the loop finished (so divergence for non-positive step shows up as
"no fuel suffices"). -/
def stepListFuel (maxv s : ℚ) : ℕ → ℚ → Option (List ℚ)
  | 0, _ => none
  | fuel + 1, cur =>
    if maxv < cur then some []
    else (stepListFuel maxv s fuel (cur + s)).map (fun l => cur :: l)

/-- Embeds `AxisRange::iter_step_by` collected to a list, run with enough fuel for
the positive-step case (for non-positive step the Rust iterator is infinite;
the `getD []` default is the junk value for that diverging case). -/
def AxisRange.iter_step_by (r : AxisRange) (s : ℚ) : List ℚ :=
  (stepListFuel r.max s (natSteps r.max s r.min + 1) r.min).getD []

/-- Embeds `impl Add<f64> for AxisRange` (axis.rs lines 316-326): shift both offsets,
keep the base. -/
def AxisRange.add_f64 (r : AxisRange) (rhs : ℚ) : AxisRange :=
  { base := r.base, min_to_base := r.min_to_base + rhs, max_to_base := r.max_to_base + rhs }

/-- Embeds `AxesBoundsPixels` (axis.rs lines 328-332). -/
structure AxesBoundsPixels where
  x : AxisRangePixels
  y : AxisRangePixels
deriving Repr, DecidableEq

/-- Embeds `AxesBoundsPixels::from_bounds` (axis.rs lines 172-185): the x interval
runs left-to-right, the y interval is flipped (screen y grows downwards). -/
def AxesBoundsPixels.from_bounds (origin size : ℚ × ℚ) : AxesBoundsPixels :=
  { x := AxisRangePixels.from_bounds origin.1 (origin.1 + size.1) size.1,
    y := AxisRangePixels.from_bounds (origin.2 + size.2) origin.2 size.2 }

/-- Embeds `AxesBounds<X, Y>` (axis.rs lines 374-378) at `X = Y = f64`. -/
structure AxesBounds where
  x : AxisRange
  y : AxisRange
deriving Repr, DecidableEq

namespace AxesBounds

/-- Embeds `AxesBounds::new` (axis.rs lines 381-383). -/
def new (x y : AxisRange) : AxesBounds := { x := x, y := y }

/-- Embeds `impl Add<Size<f64>> for AxesBounds` (axis.rs lines 427-435). -/
def addSize (b : AxesBounds) (rhs : ℚ × ℚ) : AxesBounds :=
  { x := b.x.add_f64 rhs.1, y := b.y.add_f64 rhs.2 }

/-- Embeds `AxesBounds::min_point_f64` (axis.rs lines 415-417). -/
def min_point_f64 (b : AxesBounds) : ℚ × ℚ := (b.x.min_to_base, b.y.min_to_base)

/-- Embeds `AxesBounds::max_point_f64` (axis.rs lines 419-421). -/
def max_point_f64 (b : AxesBounds) : ℚ × ℚ := (b.x.max_to_base, b.y.max_to_base)

/-- Embeds `AxesBounds::transform_point` (axis.rs lines 397-402). -/
def transform_point (b : AxesBounds) (pb : AxesBoundsPixels) (p : ℚ × ℚ) : ℚ × ℚ :=
  (b.x.transform pb.x p.1, b.y.transform pb.y p.2)

/-- Embeds `AxesBounds::transform_point_reverse_f64` (axis.rs lines 404-413). -/
def transform_point_reverse_f64 (b : AxesBounds) (pb : AxesBoundsPixels) (p : ℚ × ℚ) :
    ℚ × ℚ :=
  (b.x.transform_reverse_f64 pb.x p.1, b.y.transform_reverse_f64 pb.y p.2)

end AxesBounds

/-- Embeds `GridModel<X, Y>` (src/figure/grid.rs lines 6-16) with the
`GridType::Density` payload (the `GridType::Numbers` variant only resolves a
density from the current bounds before reaching the same code path and is not
needed by any claim). -/
structure GridModel where
  density : ℚ × ℚ
  movable : Bool
  grid_x_lines : List ℚ
  grid_y_lines : List ℚ
deriving Repr, DecidableEq

namespace GridModel

/-- Embeds `GridModel::update_grid_by_density` (grid.rs lines 56-76): collect the
stepped positions per axis, then retain those in range (that snapshot's
`in_range` is the containment test `min ≤ v ≤ max`, `AxisRange::contains` in
axis.rs). -/
def update_grid_by_density (g : GridModel) (ab : AxesBounds) (density : ℚ × ℚ) :
    GridModel :=
  { g with
    grid_x_lines := (ab.x.iter_step_by density.1).filter (fun v => ab.x.contains v),
    grid_y_lines := (ab.y.iter_step_by density.2).filter (fun v => ab.y.contains v) }

/-- Embeds `GridModel::update_grid` (grid.rs lines 42-55) in the `Density` case:
forwards the configured density to `update_grid_by_density`. -/
def update_grid (g : GridModel) (ab : AxesBounds) : GridModel :=
  g.update_grid_by_density ab g.density

/-- Embeds `GridModel::should_update_grid` (grid.rs lines 36-41): a movable grid is
recomputed only while a line cache is empty; a fixed grid every time. -/
def should_update_grid (g : GridModel) : Bool :=
  if g.movable then g.grid_x_lines.isEmpty || g.grid_y_lines.isEmpty else true

/-- Modelled from the spec: `GridModel::try_update_grid`, called from
`AxesModel::pan`/`zoom`/`new_render` (model.rs lines 125, 159, 187), is
missing from this snapshot's grid.rs; per §3/§4.3 the "try" call recomputes
the cached lines only when `should_update_grid` reports them stale. -/
def try_update_grid (g : GridModel) (ab : AxesBounds) : GridModel :=
  if g.should_update_grid then g.update_grid ab else g

end GridModel

/-- Embeds `ViewUpdateType` (model.rs lines 15-22). -/
inductive ViewUpdateType
  | Free
  | Fixed
  | Auto
deriving Repr, DecidableEq

/-- Embeds `PanState<X, Y>` (model.rs lines 10-13). -/
structure PanState where
  initial_axes_bounds : AxesBounds
  initial_pan_position : ℚ × ℚ
deriving Repr, DecidableEq

/-- Embeds `AxesModel<X, Y>` (model.rs lines 24-32) at `X = Y = f64`.  The
`elements` vector of boxed drawables takes no part in any pan/zoom/grid
claim and is omitted. -/
structure AxesModel where
  axes_bounds : AxesBounds
  pixel_bounds : AxesBoundsPixels
  grid : GridModel
  pan_state : Option PanState
  event_processed : Bool
  update_type : ViewUpdateType
deriving Repr, DecidableEq

namespace AxesModel

/-- Embeds `AxesModel::new` (model.rs lines 42-52). -/
def new (axes_bounds : AxesBounds) (grid : GridModel) : AxesModel :=
  { axes_bounds := axes_bounds,
    pixel_bounds := AxesBoundsPixels.from_bounds (0, 0) (0, 0),
    grid := grid,
    pan_state := none,
    event_processed := false,
    update_type := ViewUpdateType.Free }

/-- Embeds `AxesModel::update_scale` (model.rs lines 66-72): rebuild the pixel
bounds from the widget rectangle and cache the per-axis scales (the y scale
negated, since screen y grows downwards). -/
def update_scale (m : AxesModel) (origin size : ℚ × ℚ) : AxesModel :=
  let pb := AxesBoundsPixels.from_bounds origin size
  { m with pixel_bounds :=
      { x := { pb.x with pixels_per_element := m.axes_bounds.x.pixels_per_element pb.x },
        y := { pb.y with pixels_per_element := -(m.axes_bounds.y.pixels_per_element pb.y) } } }

/-- Embeds `AxesModel::pan_begin` (model.rs lines 127-138): snapshot the current
bounds and pointer position unless the view is fixed or the event was
already handled. -/
def pan_begin (m : AxesModel) (position : ℚ × ℚ) : AxesModel :=
  match m.update_type with
  | ViewUpdateType.Fixed => m
  | _ =>
    if m.event_processed then m
    else { m with pan_state := some { initial_axes_bounds := m.axes_bounds,
                                      initial_pan_position := position } }

/-- Embeds `AxesModel::pan` (model.rs lines 140-160): with an active pan state,
convert the total pixel displacement since gesture start to data deltas and
add them to the gesture-start snapshot, then refresh the grid. -/
def pan (m : AxesModel) (event_position : ℚ × ℚ) : AxesModel :=
  if m.event_processed then m
  else match m.pan_state with
    | none => m
    | some ps =>
      let delta_pixels := psub event_position ps.initial_pan_position
      let delta_elements : ℚ × ℚ :=
        (m.axes_bounds.x.elements_per_pixels (-delta_pixels.1) m.pixel_bounds.x,
         m.axes_bounds.y.elements_per_pixels delta_pixels.2 m.pixel_bounds.y)
      let ab := ps.initial_axes_bounds.addSize delta_elements
      { m with axes_bounds := ab, grid := m.grid.try_update_grid ab }

/-- Embeds `AxesModel::pan_end` (model.rs lines 162-167). -/
def pan_end (m : AxesModel) : AxesModel :=
  if m.event_processed then m else { m with pan_state := none }

/-- Embeds `AxesModel::zoom` (model.rs lines 168-188): recover the data-space pivot
under the cursor, apply `zoom_with_point` with factor `1.0 + delta * 1.0` to
the base-relative offsets, rebuild the ranges around the unchanged bases,
then refresh the grid. -/
def zoom (m : AxesModel) (point : ℚ × ℚ) (delta : ℚ) : AxesModel :=
  if m.event_processed then m
  else
    let zoom_point := m.axes_bounds.transform_point_reverse_f64 m.pixel_bounds point
    let zoom_factor := 1 + delta * 1
    let min_point := m.axes_bounds.min_point_f64
    let max_point := m.axes_bounds.max_point_f64
    let mm := zoom_with_point zoom_point min_point max_point zoom_factor
    let ab := AxesBounds.new
      (AxisRange.new_with_base_f64 m.axes_bounds.x.base mm.1.1 mm.2.1)
      (AxisRange.new_with_base_f64 m.axes_bounds.y.base mm.1.2 mm.2.2)
    { m with axes_bounds := ab, grid := m.grid.try_update_grid ab }

end AxesModel

/-- Helper: `partialCmp` on `a < b` answers `lt`. -/
lemma partialCmp_of_lt {a b : ℚ} (h : a < b) :
    AxisRange.partialCmp a b = some Ordering.lt := by
  simp [AxisRange.partialCmp, h]

/-- Helper: `partialCmp` on `a = b` answers `eq`. -/
lemma partialCmp_of_eq {a b : ℚ} (h : a = b) :
    AxisRange.partialCmp a b = some Ordering.eq := by
  simp [AxisRange.partialCmp, h]

/-- Helper: `partialCmp` on `b < a` answers `gt`. -/
lemma partialCmp_of_gt {a b : ℚ} (h : b < a) :
    AxisRange.partialCmp a b = some Ordering.gt := by
  simp [AxisRange.partialCmp, not_lt.mpr h.le, h.ne']

end GpuiPlot

namespace GpuiPlot

/-- Claim C8, corrected form: `AxisRange::new(min, max)` picks
`base = (max - min)/2` — the half-width, not the midpoint `min + (max-min)/2`
the spec names — and sets the offsets so that the stored `min` and `max`
recover the given endpoints exactly. -/
theorem axisRange_new_base_and_endpoints (mn mx : ℚ) (_h : mn ≤ mx) :
    (AxisRange.new mn mx).base = (mx - mn) / 2 ∧
    (AxisRange.new mn mx).min = mn ∧ (AxisRange.new mn mx).max = mx := by
  refine ⟨rfl, ?_, ?_⟩ <;>
    simp [AxisRange.new, AxisRange.new_with_base, AxisRange.min, AxisRange.max]

/-- Witness for `axisRange_new_base_and_endpoints` at `min = 10`, `max = 20`. -/
theorem axisRange_new_base_and_endpoints_witness :
    (10 : ℚ) ≤ 20 ∧
    ((AxisRange.new 10 20).base = (20 - 10) / 2 ∧
     (AxisRange.new 10 20).min = 10 ∧ (AxisRange.new 10 20).max = 20) :=
  ⟨by norm_num, axisRange_new_base_and_endpoints 10 20 (by norm_num)⟩

/-- Claim C8, counterexample: At `min = 10`, `max = 20` the code's base is `5`
(the half-width), not the midpoint `10 + (20 - 10)/2 = 15` claimed by the
spec. -/
theorem axisRange_new_base_not_midpoint :
    (AxisRange.new 10 20).base = 5 ∧ (AxisRange.new 10 20).base ≠ 10 + (20 - 10) / 2 := by
  constructor
  · norm_num [AxisRange.new, AxisRange.new_with_base]
  · norm_num [AxisRange.new, AxisRange.new_with_base]

/-- Closed form of `AxisRange::union`: on rationals (no NaN) all three
`partial_cmp` calls succeed, the chosen base is the smaller base, the chosen
endpoints are the smaller min and the larger max. -/
lemma union_eq_some (a b : AxisRange) :
    a.union b = some (AxisRange.new_with_base (Min.min a.base b.base)
      (Min.min a.min b.min) (Max.max a.max b.max)) := by
  rcases lt_trichotomy a.base b.base with h1 | h1 | h1 <;>
  rcases lt_trichotomy a.min b.min with h2 | h2 | h2 <;>
  rcases lt_trichotomy a.max b.max with h3 | h3 | h3 <;>
  simp only [AxisRange.union, partialCmp_of_lt, partialCmp_of_eq, partialCmp_of_gt,
    h1, h2, h3] <;>
  simp only [Option.some.injEq, AxisRange.new_with_base, AxisRange.mk.injEq,
    min_def, max_def] <;>
  and_intros <;> split_ifs <;> linarith

/-- Claim C4: `AxisRange::union` never returns `None` on comparable (non-NaN,
here: rational) values, and the result is the smallest covering interval:
its `min` is the smaller of the two minima and its `max` the larger of the
two maxima. -/
theorem union_smallest_covering (a b : AxisRange) :
    ∃ r : AxisRange, a.union b = some r ∧
      r.min = Min.min a.min b.min ∧ r.max = Max.max a.max b.max := by
  refine ⟨_, union_eq_some a b, ?_, ?_⟩ <;>
    simp only [AxisRange.min, AxisRange.max, AxisRange.new_with_base] <;> ring_nf

/-- A single `zoom_with_point` step with factor `f ≠ 0` is undone exactly by
a step with factor `1/f`. -/
lemma zoom_step_inv (p : ℚ × ℚ) (st : (ℚ × ℚ) × (ℚ × ℚ)) (f : ℚ) (hf : f ≠ 0) :
    zoom_step p (zoom_step p st f) (1 / f) = st := by
  simp only [zoom_step, zoom_with_point, psub, pscale, padd, Prod.mk.injEq]
  field_simp

/-- Folding over an appended factor list splits into two folds. -/
lemma zoom_seq_append (p : ℚ × ℚ) (l1 l2 : List ℚ) (st : (ℚ × ℚ) × (ℚ × ℚ)) :
    zoom_seq p (l1 ++ l2) st = zoom_seq p l2 (zoom_seq p l1 st) := by
  simp [zoom_seq, List.foldl_append]

/-- Generalised zoom reversibility: for any start state, applying the factors
then their inverses in reverse order is the identity. -/
lemma zoom_seq_inv (p : ℚ × ℚ) (fs : List ℚ) (h : ∀ f ∈ fs, f ≠ 0)
    (st : (ℚ × ℚ) × (ℚ × ℚ)) :
    zoom_seq p (fs.reverse.map (fun f => 1 / f)) (zoom_seq p fs st) = st := by
  induction fs generalizing st with
  | nil => rfl
  | cons f t ih =>
    have hf : f ≠ 0 := h f (by simp)
    have ht : ∀ g ∈ t, g ≠ 0 := fun g hg => h g (by simp [hg])
    have e1 : (f :: t).reverse.map (fun f => 1 / f) =
        t.reverse.map (fun f => 1 / f) ++ [1 / f] := by simp
    have e2 : zoom_seq p (f :: t) st = zoom_seq p t (zoom_step p st f) := by
      simp [zoom_seq]
    rw [e1, e2, zoom_seq_append, ih ht (zoom_step p st f)]
    show zoom_step p (zoom_step p st f) (1 / f) = st
    exact zoom_step_inv p st f hf

/-- Claim C1: Zoom reversibility (`zoom_with_point`, model.rs lines 194-217):
for every pivot and every finite sequence of nonzero zoom factors, applying
them in order and then their exact inverses in reverse order returns the
`(min, max)` bounds to their original values (exactly, in the rational
idealisation of f64). -/
theorem zoom_with_point_reversible (p mn mx : ℚ × ℚ) (fs : List ℚ)
    (h : ∀ f ∈ fs, f ≠ 0) :
    zoom_seq p (fs.reverse.map (fun f => 1 / f)) (zoom_seq p fs (mn, mx)) = (mn, mx) :=
  zoom_seq_inv p fs h (mn, mx)

/-- Witness for `zoom_with_point_reversible` at the source test's inputs
(`test_zoom_with_point_series`): pivot `(0,0)`, bounds `(-10,-10)/(10,10)`,
factors `[0.9, 1.0, 1.1, 1.2]`. -/
theorem zoom_with_point_reversible_witness :
    (∀ f ∈ [(9 : ℚ)/10, 1, 11/10, 6/5], f ≠ 0) ∧
    zoom_seq (0, 0) (([(9 : ℚ)/10, 1, 11/10, 6/5]).reverse.map (fun f => 1 / f))
      (zoom_seq (0, 0) [(9 : ℚ)/10, 1, 11/10, 6/5] ((-10, -10), (10, 10))) =
      ((-10, -10), (10, 10)) := by
  have h : ∀ f ∈ [(9 : ℚ)/10, 1, 11/10, 6/5], f ≠ 0 := by
    intro f hf
    fin_cases hf <;> norm_num
  exact ⟨h, zoom_with_point_reversible (0, 0) (-10, -10) (10, 10) _ h⟩

/-- Claim C2: Transform round-trip (axis.rs lines 257-272): for a nondegenerate
range, a valid (positive-size) pixel range whose `pixels_per_element` was
computed from this same range, and any value in `[min, max]`,
`transform_reverse (transform v) = v` (exactly, in the rational idealisation
of f64). -/
theorem transform_round_trip (r : AxisRange) (b : AxisRangePixels) (v : ℚ)
    (hr : r.min_to_base < r.max_to_base) (hb : 0 < b.size)
    (hppe : b.pixels_per_element = r.pixels_per_element b)
    (_hv1 : r.min ≤ v) (_hv2 : v ≤ r.max) :
    r.transform_reverse b (r.transform b v) = v := by
  have hsz : r.size_in_f64 ≠ 0 := by
    unfold AxisRange.size_in_f64; intro hc; linarith [sub_eq_zero.mp hc]
  have hppe0 : b.pixels_per_element ≠ 0 := by
    rw [hppe]
    unfold AxisRange.pixels_per_element
    exact div_ne_zero (ne_of_gt hb) hsz
  unfold AxisRange.transform_reverse AxisRange.transform
  field_simp

/-- Witness for `transform_round_trip`: range `[0, 100]`, pixel range
`[0, 800]` of size `800` with scale `8 = 800/100`, value `25`. -/
theorem transform_round_trip_witness :
    ((AxisRange.new 0 100).min_to_base < (AxisRange.new 0 100).max_to_base ∧
     (0 : ℚ) < 800 ∧
     (AxisRangePixels.mk 0 800 800 8).pixels_per_element =
       (AxisRange.new 0 100).pixels_per_element (AxisRangePixels.mk 0 800 800 8) ∧
     (AxisRange.new 0 100).min ≤ 25 ∧ (25 : ℚ) ≤ (AxisRange.new 0 100).max) ∧
    (AxisRange.new 0 100).transform_reverse (AxisRangePixels.mk 0 800 800 8)
      ((AxisRange.new 0 100).transform (AxisRangePixels.mk 0 800 800 8) 25) = 25 := by

  have h1 : (AxisRange.new 0 100).min_to_base < (AxisRange.new 0 100).max_to_base := by
    norm_num [AxisRange.new, AxisRange.new_with_base]
  have h2 : (0 : ℚ) < 800 := by norm_num
  have h3 : (AxisRangePixels.mk 0 800 800 8).pixels_per_element =
      (AxisRange.new 0 100).pixels_per_element (AxisRangePixels.mk 0 800 800 8) := by
    norm_num [AxisRange.new, AxisRange.new_with_base, AxisRange.pixels_per_element,
      AxisRange.size_in_f64]
  have h4 : (AxisRange.new 0 100).min ≤ 25 := by
    norm_num [AxisRange.new, AxisRange.new_with_base, AxisRange.min]
  have h5 : (25 : ℚ) ≤ (AxisRange.new 0 100).max := by
    norm_num [AxisRange.new, AxisRange.new_with_base, AxisRange.max]
  exact ⟨⟨h1, h2, h3, h4, h5⟩, transform_round_trip _ _ _ h1 h2 h3 h4 h5⟩

/-- Stepping once from below the max drops the remaining iteration count by
one. -/
lemma natSteps_shift {maxv s cur : ℚ} (hs : 0 < s) (h : ¬ maxv < cur) :
    natSteps maxv s (cur + s) = (⌊(maxv - cur) / s⌋).toNat := by
  push_neg at h
  by_cases h2 : maxv < cur + s
  · rw [natSteps, if_pos h2]
    have hf : ⌊(maxv - cur) / s⌋ = 0 := by
      rw [Int.floor_eq_zero_iff]
      constructor
      · exact div_nonneg (by linarith) hs.le
      · rw [div_lt_one hs]; linarith
    simp [hf]
  · rw [natSteps, if_neg h2]
    push_neg at h2
    have e : (maxv - (cur + s)) / s = (maxv - cur) / s - 1 := by
      field_simp
      ring
    rw [e, Int.floor_sub_one]
    have h1le : (1 : ℚ) ≤ (maxv - cur) / s := by
      rw [le_div_iff₀ hs]; linarith
    have hint : (1 : ℤ) ≤ ⌊(maxv - cur) / s⌋ := by
      rw [Int.le_floor]; exact_mod_cast h1le
    omega

/-- With a positive step and enough fuel, the iterator loop terminates and
produces exactly the arithmetic progression of `natSteps` values. -/
lemma stepListFuel_eq {s : ℚ} (hs : 0 < s) (maxv : ℚ) :
    ∀ (fuel : ℕ) (cur : ℚ), natSteps maxv s cur < fuel →
      stepListFuel maxv s fuel cur =
        some ((List.range (natSteps maxv s cur)).map (fun i : Nat => cur + (i : ℚ) * s)) := by
  intro fuel
  induction fuel with
  | zero => intro cur h; omega
  | succ fuel ih =>
    intro cur h
    rw [stepListFuel]
    by_cases hc : maxv < cur
    · rw [if_pos hc]
      rw [natSteps, if_pos hc]
      simp
    · rw [if_neg hc]
      have hshift := natSteps_shift hs hc
      have hcount : natSteps maxv s cur = natSteps maxv s (cur + s) + 1 := by
        rw [natSteps, if_neg hc, hshift]
      have hlt : natSteps maxv s (cur + s) < fuel := by omega
      rw [ih (cur + s) hlt]
      simp only [Option.map_some']
      congr 1
      rw [hcount, List.range_succ_eq_map, List.map_cons]
      congr 1
      · norm_num
      · rw [List.map_map]
        apply List.map_congr_left
        intro i _
        simp only [Function.comp_apply]
        push_cast
        ring

/-- Closed form of the collected iterator for a positive step. -/
lemma iter_step_by_eq (r : AxisRange) (s : ℚ) (hs : 0 < s) :
    r.iter_step_by s =
      (List.range (natSteps r.max s r.min)).map (fun i : Nat => r.min + (i : ℚ) * s) := by
  unfold AxisRange.iter_step_by
  rw [stepListFuel_eq hs r.max (natSteps r.max s r.min + 1) r.min (by omega)]
  rfl

/-- The visible size equals `max - min` (bases cancel). -/
lemma size_in_f64_eq (r : AxisRange) : r.size_in_f64 = r.max - r.min := by
  unfold AxisRange.size_in_f64 AxisRange.min AxisRange.max
  ring

/-- Claim C9: `iter_step_by` (axis.rs lines 273-283): for `min ≤ max` and a
strictly positive step, the loop terminates (a finite fuel suffices) and
yields exactly the values `min, min + s, min + 2s, …` that are `≤ max`
(`k < length ↔ min + k·s ≤ max`), starting at `min` — and since it is a pure
function of the range, any fresh call restarts the same sequence from `min`. -/
theorem iter_step_by_exact (r : AxisRange) (s : ℚ) (hs : 0 < s) (hle : r.min ≤ r.max) :
    ∃ l : List ℚ,
      stepListFuel r.max s (natSteps r.max s r.min + 1) r.min = some l ∧
      r.iter_step_by s = l ∧
      l = (List.range (⌊(r.max - r.min) / s⌋.toNat + 1)).map
            (fun i : Nat => r.min + (i : ℚ) * s) ∧
      (∀ k : ℕ, k < l.length ↔ r.min + (k : ℚ) * s ≤ r.max) ∧
      l.head? = some r.min := by
  have hnl : ¬ r.max < r.min := not_lt.mpr hle
  have hN : natSteps r.max s r.min = ⌊(r.max - r.min) / s⌋.toNat + 1 := by
    rw [natSteps, if_neg hnl]
  have hfl : (0 : ℤ) ≤ ⌊(r.max - r.min) / s⌋ := by
    apply Int.floor_nonneg.mpr
    exact div_nonneg (by linarith) hs.le
  have hclosed := iter_step_by_eq r s hs
  refine ⟨r.iter_step_by s, ?_, rfl, ?_, ?_, ?_⟩
  · unfold AxisRange.iter_step_by
    rw [stepListFuel_eq hs r.max (natSteps r.max s r.min + 1) r.min (by omega)]
    rfl
  · rw [hclosed, hN]
  · intro k
    rw [hclosed]
    simp only [List.length_map, List.length_range, hN]
    constructor
    · intro hk
      have hk2 : (k : ℤ) ≤ ⌊(r.max - r.min) / s⌋ := by omega
      have hk3 : (k : ℚ) ≤ (r.max - r.min) / s := by
        calc (k : ℚ) ≤ (⌊(r.max - r.min) / s⌋ : ℚ) := by exact_mod_cast hk2
          _ ≤ (r.max - r.min) / s := Int.floor_le _
      have := (le_div_iff₀ hs).mp hk3
      linarith
    · intro hk
      have hk3 : (k : ℚ) ≤ (r.max - r.min) / s := by
        rw [le_div_iff₀ hs]; linarith
      have hk2 : (k : ℤ) ≤ ⌊(r.max - r.min) / s⌋ := Int.le_floor.mpr (by exact_mod_cast hk3)
      omega
  · rw [hclosed, hN, List.range_succ_eq_map]
    simp

/-- Witness for `iter_step_by_exact`: range `[0, 10]` with step `3`. -/
theorem iter_step_by_exact_witness :
    ((0 : ℚ) < 3 ∧ (AxisRange.new 0 10).min ≤ (AxisRange.new 0 10).max) ∧
    (∃ l : List ℚ,
      stepListFuel (AxisRange.new 0 10).max 3
        (natSteps (AxisRange.new 0 10).max 3 (AxisRange.new 0 10).min + 1)
        (AxisRange.new 0 10).min = some l ∧
      (AxisRange.new 0 10).iter_step_by 3 = l ∧
      l = (List.range (⌊((AxisRange.new 0 10).max - (AxisRange.new 0 10).min) / 3⌋.toNat + 1)).map
            (fun i : Nat => (AxisRange.new 0 10).min + (i : ℚ) * 3) ∧
      (∀ k : ℕ, k < l.length ↔ (AxisRange.new 0 10).min + (k : ℚ) * 3 ≤ (AxisRange.new 0 10).max) ∧
      l.head? = some (AxisRange.new 0 10).min) := by
  have h1 : (0 : ℚ) < 3 := by norm_num
  have h2 : (AxisRange.new 0 10).min ≤ (AxisRange.new 0 10).max := by
    norm_num [AxisRange.new, AxisRange.new_with_base, AxisRange.min, AxisRange.max]
  exact ⟨⟨h1, h2⟩, iter_step_by_exact (AxisRange.new 0 10) 3 h1 h2⟩

/-- Per-axis content of the grid update: with `min ≤ max` and a positive
spacing, the `in_range` retention keeps the whole stepped progression, every
kept line is inside `[min, max]`, the lines are strictly increasing, and
there are exactly `⌊size/spacing⌋ + 1` of them. -/
lemma grid_axis_lines (r : AxisRange) (s : ℚ) (hs : 0 < s) (hle : r.min ≤ r.max) :
    (r.iter_step_by s).filter (fun v => r.contains v) = r.iter_step_by s ∧
    (∀ v ∈ r.iter_step_by s, r.min ≤ v ∧ v ≤ r.max) ∧
    (r.iter_step_by s).Pairwise (· < ·) ∧
    (r.iter_step_by s).length = ⌊r.size_in_f64 / s⌋.toNat + 1 := by
  have hnl : ¬ r.max < r.min := not_lt.mpr hle
  have hN : natSteps r.max s r.min = ⌊(r.max - r.min) / s⌋.toNat + 1 := by
    rw [natSteps, if_neg hnl]
  have hclosed := iter_step_by_eq r s hs
  have hfl : (0 : ℤ) ≤ ⌊(r.max - r.min) / s⌋ :=
    Int.floor_nonneg.mpr (div_nonneg (by linarith) hs.le)
  have hmem : ∀ v ∈ r.iter_step_by s, r.min ≤ v ∧ v ≤ r.max := by
    intro v hv
    rw [hclosed] at hv
    rcases List.mem_map.mp hv with ⟨i, hi, rfl⟩
    rw [List.mem_range, hN] at hi
    constructor
    · have h0 : (0 : ℚ) ≤ (i : ℚ) * s := mul_nonneg (by positivity) hs.le
      linarith
    · have hi2 : (i : ℤ) ≤ ⌊(r.max - r.min) / s⌋ := by omega
      have hi3 : (i : ℚ) ≤ (r.max - r.min) / s := by
        calc (i : ℚ) ≤ (⌊(r.max - r.min) / s⌋ : ℚ) := by exact_mod_cast hi2
          _ ≤ (r.max - r.min) / s := Int.floor_le _
      have := (le_div_iff₀ hs).mp hi3
      linarith
  refine ⟨?_, hmem, ?_, ?_⟩
  · apply List.filter_eq_self.mpr
    intro v hv
    rcases hmem v hv with ⟨h1, h2⟩
    simp [AxisRange.contains, h1, h2]
  · rw [hclosed]
    apply List.pairwise_map.mpr
    refine List.Pairwise.imp ?_ (List.pairwise_lt_range _)
    intro a b hab
    have hq : (a : ℚ) < (b : ℚ) := by exact_mod_cast hab
    have := mul_lt_mul_of_pos_right hq hs
    linarith
  · rw [hclosed]
    simp [hN, size_in_f64_eq]

/-- Claim C7: Grid derivation postcondition (`update_grid_by_density`,
grid.rs lines 56-76): for bounds with `min ≤ max` per axis and positive
resolved spacings, each axis's gridline list contains only positions inside
`[min, max]`, is strictly increasing (hence duplicate-free), has exactly
`⌊visible_size/spacing⌋ + 1` entries (within the claim's `±1` allowance),
and recomputing with the same bounds and spacing yields the same lists
(the update is idempotent). -/
theorem grid_update_postcondition (g : GridModel) (ab : AxesBounds) (sx sy : ℚ)
    (hsx : 0 < sx) (hsy : 0 < sy)
    (hx : ab.x.min ≤ ab.x.max) (hy : ab.y.min ≤ ab.y.max) :
    (∀ v ∈ (g.update_grid_by_density ab (sx, sy)).grid_x_lines,
        ab.x.min ≤ v ∧ v ≤ ab.x.max) ∧
    (g.update_grid_by_density ab (sx, sy)).grid_x_lines.Pairwise (· < ·) ∧
    (g.update_grid_by_density ab (sx, sy)).grid_x_lines.length =
      ⌊ab.x.size_in_f64 / sx⌋.toNat + 1 ∧
    (∀ v ∈ (g.update_grid_by_density ab (sx, sy)).grid_y_lines,
        ab.y.min ≤ v ∧ v ≤ ab.y.max) ∧
    (g.update_grid_by_density ab (sx, sy)).grid_y_lines.Pairwise (· < ·) ∧
    (g.update_grid_by_density ab (sx, sy)).grid_y_lines.length =
      ⌊ab.y.size_in_f64 / sy⌋.toNat + 1 ∧
    (g.update_grid_by_density ab (sx, sy)).update_grid_by_density ab (sx, sy) =
      g.update_grid_by_density ab (sx, sy) := by
  obtain ⟨hxf, hxm, hxp, hxl⟩ := grid_axis_lines ab.x sx hsx hx
  obtain ⟨hyf, hym, hyp, hyl⟩ := grid_axis_lines ab.y sy hsy hy
  simp only [GridModel.update_grid_by_density, hxf, hyf]
  exact ⟨hxm, hxp, hxl, hym, hyp, hyl, trivial⟩

/-- Witness for `grid_update_postcondition`: a movable grid over the square
`[0,10] × [0,10]` with spacings `3` and `4`. -/
theorem grid_update_postcondition_witness :
    ((0 : ℚ) < 3 ∧ (0 : ℚ) < 4 ∧
     (AxisRange.new 0 10).min ≤ (AxisRange.new 0 10).max) ∧
    (∀ v ∈ ((GridModel.mk (3, 4) true [] []).update_grid_by_density
        (AxesBounds.new (AxisRange.new 0 10) (AxisRange.new 0 10)) (3, 4)).grid_x_lines,
      (AxesBounds.new (AxisRange.new 0 10) (AxisRange.new 0 10)).x.min ≤ v ∧
        v ≤ (AxesBounds.new (AxisRange.new 0 10) (AxisRange.new 0 10)).x.max) := by
  have h1 : (0 : ℚ) < 3 := by norm_num
  have h2 : (0 : ℚ) < 4 := by norm_num
  have h3 : (AxisRange.new 0 10).min ≤ (AxisRange.new 0 10).max := by
    norm_num [AxisRange.new, AxisRange.new_with_base, AxisRange.min, AxisRange.max]
  refine ⟨⟨h1, h2, h3⟩, ?_⟩
  exact (grid_update_postcondition (GridModel.mk (3, 4) true [] [])
    (AxesBounds.new (AxisRange.new 0 10) (AxisRange.new 0 10)) 3 4 h1 h2 h3 h3).1

/-- Claim C10: `AxesModel::pan` (model.rs lines 140-146) with no active pan
gesture (`pan_state == None`, because `pan_begin` never ran or `pan_end`
already cleared it) returns early and leaves the whole model — bounds, grid,
everything — unchanged. -/
theorem pan_without_state_noop (m : AxesModel) (pos : ℚ × ℚ)
    (h : m.pan_state = none) :
    m.pan pos = m := by
  unfold AxesModel.pan
  rw [h]
  by_cases he : m.event_processed <;> simp [he]

/-- Witness for `pan_without_state_noop`: a freshly constructed model (whose
`pan_state` starts out `None`) ignores a pan event. -/
theorem pan_without_state_noop_witness :
    ((AxesModel.new (AxesBounds.new (AxisRange.new 0 100) (AxisRange.new 0 100))
        (GridModel.mk (10, 10) true [0] [0])).pan_state = none) ∧
    (AxesModel.new (AxesBounds.new (AxisRange.new 0 100) (AxisRange.new 0 100))
        (GridModel.mk (10, 10) true [0] [0])).pan (5, 7) =
      AxesModel.new (AxesBounds.new (AxisRange.new 0 100) (AxisRange.new 0 100))
        (GridModel.mk (10, 10) true [0] [0]) :=
  ⟨rfl, pan_without_state_noop _ (5, 7) rfl⟩

/-- Helper: `pan` never touches `pan_state`, `event_processed` or `pixel_bounds`. -/
lemma pan_preserves_control (m : AxesModel) (p : ℚ × ℚ) :
    (m.pan p).pan_state = m.pan_state ∧
    (m.pan p).event_processed = m.event_processed ∧
    (m.pan p).pixel_bounds = m.pixel_bounds := by
  unfold AxesModel.pan
  by_cases he : m.event_processed
  · simp [he]
  · cases hst : m.pan_state <;> simp [he, hst]

/-- Shifting a range keeps its size. -/
lemma add_f64_size (r : AxisRange) (d : ℚ) :
    (r.add_f64 d).size_in_f64 = r.size_in_f64 := by
  simp [AxisRange.add_f64, AxisRange.size_in_f64]

/-- During a gesture, `pan` re-derives the bounds from the gesture-start
snapshot, so the axes sizes stay those of the snapshot. -/
lemma pan_preserves_size (m : AxesModel) (ps : PanState) (p : ℚ × ℚ)
    (hst : m.pan_state = some ps) (hev : m.event_processed = false) :
    (m.pan p).axes_bounds.x.size_in_f64 = ps.initial_axes_bounds.x.size_in_f64 ∧
    (m.pan p).axes_bounds.y.size_in_f64 = ps.initial_axes_bounds.y.size_in_f64 := by
  unfold AxesModel.pan
  simp [hst, hev, AxesBounds.addSize, add_f64_size]

/-- The bounds produced by one `pan` call depend only on the snapshot, the
event position, the pixel bounds and the current axes sizes. -/
lemma pan_bounds_congr (m m' : AxesModel) (ps : PanState) (e : ℚ × ℚ)
    (h1 : m.pan_state = some ps) (h1' : m'.pan_state = some ps)
    (h2 : m.event_processed = false) (h2' : m'.event_processed = false)
    (h3 : m'.pixel_bounds = m.pixel_bounds)
    (h4x : m'.axes_bounds.x.size_in_f64 = m.axes_bounds.x.size_in_f64)
    (h4y : m'.axes_bounds.y.size_in_f64 = m.axes_bounds.y.size_in_f64) :
    (m'.pan e).axes_bounds = (m.pan e).axes_bounds := by
  unfold AxesModel.pan
  simp [h1, h1', h2, h2', h3, AxisRange.elements_per_pixels, h4x, h4y]

/-- Folding any prefix of pan events does not change the outcome of the
final pan event: each pan recomputes from the gesture-start snapshot. -/
lemma pan_replay_fold (es : List (ℚ × ℚ)) (e : ℚ × ℚ) :
    ∀ (m : AxesModel) (ps : PanState),
      m.pan_state = some ps → m.event_processed = false →
      m.axes_bounds.x.size_in_f64 = ps.initial_axes_bounds.x.size_in_f64 →
      m.axes_bounds.y.size_in_f64 = ps.initial_axes_bounds.y.size_in_f64 →
      ((es ++ [e]).foldl AxesModel.pan m).axes_bounds = (m.pan e).axes_bounds := by
  induction es with
  | nil =>
    intro m ps _ _ _ _
    simp
  | cons a t ih =>
    intro m ps hst hev hszx hszy
    obtain ⟨hp1, hp2, hp3⟩ := pan_preserves_control m a
    obtain ⟨hq1, hq2⟩ := pan_preserves_size m ps a hst hev
    have hst' : (m.pan a).pan_state = some ps := hp1.trans hst
    have hev' : (m.pan a).event_processed = false := hp2.trans hev
    have step := ih (m.pan a) ps hst' hev' hq1 hq2
    have hcongr := pan_bounds_congr m (m.pan a) ps e hst hst' hev hev' hp3
      (hq1.trans hszx.symm) (hq2.trans hszy.symm)
    calc ((a :: t ++ [e]).foldl AxesModel.pan m).axes_bounds
        = ((t ++ [e]).foldl AxesModel.pan (m.pan a)).axes_bounds := by simp
      _ = ((m.pan a).pan e).axes_bounds := step
      _ = (m.pan e).axes_bounds := hcongr

/-- Claim C3: Pan replay (`AxesModel::pan`, model.rs lines 140-160): starting
from a state with an active gesture snapshot `ps` (sizes still those of the
snapshot, as `pan_begin` guarantees), folding any sequence of pan events and
then a final event at `e` yields exactly the bounds of a single pan at `e` —
and that single pan is the snapshot shifted by the data-space image of the
total pixel displacement `e - start`: pan is a pure function of
(initial snapshot, total pixel displacement). -/
theorem pan_replay (m : AxesModel) (ps : PanState) (es : List (ℚ × ℚ)) (e : ℚ × ℚ)
    (hst : m.pan_state = some ps) (hev : m.event_processed = false)
    (hszx : m.axes_bounds.x.size_in_f64 = ps.initial_axes_bounds.x.size_in_f64)
    (hszy : m.axes_bounds.y.size_in_f64 = ps.initial_axes_bounds.y.size_in_f64) :
    ((es ++ [e]).foldl AxesModel.pan m).axes_bounds = (m.pan e).axes_bounds ∧
    (m.pan e).axes_bounds = ps.initial_axes_bounds.addSize
      (ps.initial_axes_bounds.x.elements_per_pixels
        (-(e.1 - ps.initial_pan_position.1)) m.pixel_bounds.x,
       ps.initial_axes_bounds.y.elements_per_pixels
        (e.2 - ps.initial_pan_position.2) m.pixel_bounds.y) := by
  constructor
  · exact pan_replay_fold es e m ps hst hev hszx hszy
  · unfold AxesModel.pan
    simp [hst, hev, psub, AxisRange.elements_per_pixels, hszx, hszy]

/-- Witness for `pan_replay`: square bounds `[0,100]²` on an `800×600` pixel
rectangle, gesture started at `(0,0)`, one intermediate event at `(10,5)`,
final event at `(80,0)`. -/
theorem pan_replay_witness :
    ((AxesModel.mk
        (AxesBounds.new (AxisRange.new 0 100) (AxisRange.new 0 100))
        (AxesBoundsPixels.mk (AxisRangePixels.mk 0 800 800 8)
          (AxisRangePixels.mk 600 0 600 (-6)))
        (GridModel.mk (10, 10) true [0] [0])
        (some (PanState.mk (AxesBounds.new (AxisRange.new 0 100) (AxisRange.new 0 100)) (0, 0)))
        false ViewUpdateType.Free).pan_state =
      some (PanState.mk (AxesBounds.new (AxisRange.new 0 100) (AxisRange.new 0 100)) (0, 0))) ∧
    (([((10 : ℚ), (5 : ℚ))] ++ [((80 : ℚ), (0 : ℚ))]).foldl AxesModel.pan
        (AxesModel.mk
          (AxesBounds.new (AxisRange.new 0 100) (AxisRange.new 0 100))
          (AxesBoundsPixels.mk (AxisRangePixels.mk 0 800 800 8)
            (AxisRangePixels.mk 600 0 600 (-6)))
          (GridModel.mk (10, 10) true [0] [0])
          (some (PanState.mk (AxesBounds.new (AxisRange.new 0 100) (AxisRange.new 0 100)) (0, 0)))
          false ViewUpdateType.Free)).axes_bounds =
      ((AxesModel.mk
          (AxesBounds.new (AxisRange.new 0 100) (AxisRange.new 0 100))
          (AxesBoundsPixels.mk (AxisRangePixels.mk 0 800 800 8)
            (AxisRangePixels.mk 600 0 600 (-6)))
          (GridModel.mk (10, 10) true [0] [0])
          (some (PanState.mk (AxesBounds.new (AxisRange.new 0 100) (AxisRange.new 0 100)) (0, 0)))
          false ViewUpdateType.Free).pan ((80 : ℚ), (0 : ℚ))).axes_bounds :=
  ⟨rfl, (pan_replay _ _ [((10 : ℚ), (5 : ℚ))] ((80 : ℚ), (0 : ℚ)) rfl rfl rfl rfl).1⟩

/-- Claim C6: Pan scenario: bounds `[0,100] × [0,100]` on an `800×600` pixel
rectangle (scale cached by `update_scale`), gesture begun at pixel
`(100,100)`, one pan event with total pixel delta `(80, 0)`: the X range
becomes exactly `[-10, 90]` (pan right moves the view left in data space)
and the Y range stays `[0, 100]`. -/
theorem pan_scenario :
    ((((AxesModel.new (AxesBounds.new (AxisRange.new 0 100) (AxisRange.new 0 100))
        (GridModel.mk (10, 10) true [0] [0])).update_scale (0, 0) (800, 600)).pan_begin
        (100, 100)).pan (180, 100)).axes_bounds.x.min = -10 ∧
    ((((AxesModel.new (AxesBounds.new (AxisRange.new 0 100) (AxisRange.new 0 100))
        (GridModel.mk (10, 10) true [0] [0])).update_scale (0, 0) (800, 600)).pan_begin
        (100, 100)).pan (180, 100)).axes_bounds.x.max = 90 ∧
    ((((AxesModel.new (AxesBounds.new (AxisRange.new 0 100) (AxisRange.new 0 100))
        (GridModel.mk (10, 10) true [0] [0])).update_scale (0, 0) (800, 600)).pan_begin
        (100, 100)).pan (180, 100)).axes_bounds.y.min = 0 ∧
    ((((AxesModel.new (AxesBounds.new (AxisRange.new 0 100) (AxisRange.new 0 100))
        (GridModel.mk (10, 10) true [0] [0])).update_scale (0, 0) (800, 600)).pan_begin
        (100, 100)).pan (180, 100)).axes_bounds.y.max = 100 := by
  norm_num [AxesModel.new, AxesModel.update_scale, AxesModel.pan_begin, AxesModel.pan,
    AxesBoundsPixels.from_bounds, AxisRangePixels.from_bounds, AxisRange.pixels_per_element,
    AxisRange.elements_per_pixels, AxisRange.size_in_f64, AxisRange.new,
    AxisRange.new_with_base, AxesBounds.new, AxesBounds.addSize, AxisRange.add_f64,
    AxisRange.min, AxisRange.max, GridModel.try_update_grid, GridModel.should_update_grid,
    GridModel.update_grid, GridModel.update_grid_by_density, psub]

/-- The pixel point fed to the zoom scenario really is the image of the data
point `(50,50)` (the exact bounds centre) under the cached transform. -/
lemma zoom_scenario_pixel_point :
    ((AxesModel.new (AxesBounds.new (AxisRange.new 0 100) (AxisRange.new 0 100))
        (GridModel.mk (10, 10) true [0] [0])).update_scale (0, 0)
        (800, 600)).axes_bounds.transform_point
      ((AxesModel.new (AxesBounds.new (AxisRange.new 0 100) (AxisRange.new 0 100))
        (GridModel.mk (10, 10) true [0] [0])).update_scale (0, 0) (800, 600)).pixel_bounds
      (50, 50) = (400, 300) := by
  norm_num [AxesModel.new, AxesModel.update_scale, AxesBoundsPixels.from_bounds,
    AxisRangePixels.from_bounds, AxisRange.pixels_per_element, AxisRange.size_in_f64,
    AxisRange.new, AxisRange.new_with_base, AxesBounds.new, AxesBounds.transform_point,
    AxisRange.transform, AxisRange.min]

/-- Claim C5, counterexample: In the claim's own scenario — bounds `[0,100]²`
centred at `(50,50)`, pixel rectangle `800×600`, zoom anchored at the pixel
position `(400,300)` of the centre, accumulated log-factor `a = ln 2` so
that `PlotView::zoom` (plot.rs lines 175-192) passes `exp(a) = 2` down as
`delta` — `AxesModel::zoom` (model.rs lines 168-188) computes
`zoom_factor = 1 + delta = 3`: the X range becomes `[-100, 200]`, whose
half-width `150` is tripled, not the claimed doubled half-width `100`
(range `[-50, 150]`); only the centre `(50, 50)` is preserved. -/
theorem zoom_scenario_counterexample :
    (((AxesModel.new (AxesBounds.new (AxisRange.new 0 100) (AxisRange.new 0 100))
        (GridModel.mk (10, 10) true [0] [0])).update_scale (0, 0) (800, 600)).zoom
        (400, 300) 2).axes_bounds.x.min = -100 ∧
    (((AxesModel.new (AxesBounds.new (AxisRange.new 0 100) (AxisRange.new 0 100))
        (GridModel.mk (10, 10) true [0] [0])).update_scale (0, 0) (800, 600)).zoom
        (400, 300) 2).axes_bounds.x.max = 200 ∧
    (((200 : ℚ) - (-100)) / 2 = 150 ∧ (150 : ℚ) ≠ 2 * 50) ∧
    (((-100 : ℚ)) + 200) / 2 = 50 := by
  refine ⟨?_, ?_, ⟨by norm_num, by norm_num⟩, by norm_num⟩ <;>
  norm_num [AxesModel.new, AxesModel.update_scale, AxesModel.zoom,
    AxesBoundsPixels.from_bounds, AxisRangePixels.from_bounds, AxisRange.pixels_per_element,
    AxisRange.size_in_f64, AxisRange.new, AxisRange.new_with_base,
    AxisRange.new_with_base_f64, AxesBounds.new, AxesBounds.min_point_f64,
    AxesBounds.max_point_f64, AxesBounds.transform_point_reverse_f64,
    AxisRange.transform_reverse_f64, zoom_with_point, psub, padd, pscale,
    AxisRange.min, AxisRange.max, GridModel.try_update_grid, GridModel.should_update_grid,
    GridModel.update_grid, GridModel.update_grid_by_density]

/-- Claim C5, amended: `AxesModel::zoom point delta` multiplies the
base-relative offsets about the recovered pivot by `zoom_factor = 1 + delta`
— not by `exp(delta)`, and not by the passed value itself — leaving both
bases unchanged.  (With the plot pipeline's `delta = exp(a)` and `a = ln 2`,
the factor is `1 + 2 = 3`: the centre pivot stays fixed but the half-width
triples.) -/
theorem zoom_applies_one_plus_delta (m : AxesModel) (point : ℚ × ℚ) (delta : ℚ)
    (hev : m.event_processed = false) :
    (m.zoom point delta).axes_bounds = AxesBounds.new
      (AxisRange.new_with_base_f64 m.axes_bounds.x.base
        ((m.axes_bounds.transform_point_reverse_f64 m.pixel_bounds point).1 +
          (m.axes_bounds.x.min_to_base -
            (m.axes_bounds.transform_point_reverse_f64 m.pixel_bounds point).1) * (1 + delta))
        ((m.axes_bounds.transform_point_reverse_f64 m.pixel_bounds point).1 +
          (m.axes_bounds.x.max_to_base -
            (m.axes_bounds.transform_point_reverse_f64 m.pixel_bounds point).1) * (1 + delta)))
      (AxisRange.new_with_base_f64 m.axes_bounds.y.base
        ((m.axes_bounds.transform_point_reverse_f64 m.pixel_bounds point).2 +
          (m.axes_bounds.y.min_to_base -
            (m.axes_bounds.transform_point_reverse_f64 m.pixel_bounds point).2) * (1 + delta))
        ((m.axes_bounds.transform_point_reverse_f64 m.pixel_bounds point).2 +
          (m.axes_bounds.y.max_to_base -
            (m.axes_bounds.transform_point_reverse_f64 m.pixel_bounds point).2) * (1 + delta))) := by
  unfold AxesModel.zoom
  simp only [hev, Bool.false_eq_true, if_false, zoom_with_point, psub, padd, pscale,
    AxesBounds.new, AxesBounds.min_point_f64, AxesBounds.max_point_f64,
    AxisRange.new_with_base_f64, AxesBounds.mk.injEq, AxisRange.mk.injEq]
  and_intros <;> first
    | rfl
    | ring_nf

/-- Witness for `zoom_applies_one_plus_delta` at the counterexample's model,
pixel point `(400,300)` and `delta = 2`. -/
theorem zoom_applies_one_plus_delta_witness :
    (((AxesModel.new (AxesBounds.new (AxisRange.new 0 100) (AxisRange.new 0 100))
        (GridModel.mk (10, 10) true [0] [0])).update_scale (0, 0)
        (800, 600)).event_processed = false) ∧
    ((((AxesModel.new (AxesBounds.new (AxisRange.new 0 100) (AxisRange.new 0 100))
        (GridModel.mk (10, 10) true [0] [0])).update_scale (0, 0) (800, 600)).zoom
        (400, 300) 2).axes_bounds = AxesBounds.new
      (AxisRange.new_with_base_f64
        (((AxesModel.new (AxesBounds.new (AxisRange.new 0 100) (AxisRange.new 0 100))
          (GridModel.mk (10, 10) true [0] [0])).update_scale (0, 0)
          (800, 600)).axes_bounds.x.base)
        ((((AxesModel.new (AxesBounds.new (AxisRange.new 0 100) (AxisRange.new 0 100))
            (GridModel.mk (10, 10) true [0] [0])).update_scale (0, 0)
            (800, 600)).axes_bounds.transform_point_reverse_f64
            ((AxesModel.new (AxesBounds.new (AxisRange.new 0 100) (AxisRange.new 0 100))
              (GridModel.mk (10, 10) true [0] [0])).update_scale (0, 0)
              (800, 600)).pixel_bounds (400, 300)).1 +
          ((((AxesModel.new (AxesBounds.new (AxisRange.new 0 100) (AxisRange.new 0 100))
            (GridModel.mk (10, 10) true [0] [0])).update_scale (0, 0)
            (800, 600)).axes_bounds.x.min_to_base) -
            (((AxesModel.new (AxesBounds.new (AxisRange.new 0 100) (AxisRange.new 0 100))
              (GridModel.mk (10, 10) true [0] [0])).update_scale (0, 0)
              (800, 600)).axes_bounds.transform_point_reverse_f64
              ((AxesModel.new (AxesBounds.new (AxisRange.new 0 100) (AxisRange.new 0 100))
                (GridModel.mk (10, 10) true [0] [0])).update_scale (0, 0)
                (800, 600)).pixel_bounds (400, 300)).1) * (1 + 2))
        ((((AxesModel.new (AxesBounds.new (AxisRange.new 0 100) (AxisRange.new 0 100))
            (GridModel.mk (10, 10) true [0] [0])).update_scale (0, 0)
            (800, 600)).axes_bounds.transform_point_reverse_f64
            ((AxesModel.new (AxesBounds.new (AxisRange.new 0 100) (AxisRange.new 0 100))
              (GridModel.mk (10, 10) true [0] [0])).update_scale (0, 0)
              (800, 600)).pixel_bounds (400, 300)).1 +
          ((((AxesModel.new (AxesBounds.new (AxisRange.new 0 100) (AxisRange.new 0 100))
            (GridModel.mk (10, 10) true [0] [0])).update_scale (0, 0)
            (800, 600)).axes_bounds.x.max_to_base) -
            (((AxesModel.new (AxesBounds.new (AxisRange.new 0 100) (AxisRange.new 0 100))
              (GridModel.mk (10, 10) true [0] [0])).update_scale (0, 0)
              (800, 600)).axes_bounds.transform_point_reverse_f64
              ((AxesModel.new (AxesBounds.new (AxisRange.new 0 100) (AxisRange.new 0 100))
                (GridModel.mk (10, 10) true [0] [0])).update_scale (0, 0)
                (800, 600)).pixel_bounds (400, 300)).1) * (1 + 2)))
      (AxisRange.new_with_base_f64
        (((AxesModel.new (AxesBounds.new (AxisRange.new 0 100) (AxisRange.new 0 100))
          (GridModel.mk (10, 10) true [0] [0])).update_scale (0, 0)
          (800, 600)).axes_bounds.y.base)
        ((((AxesModel.new (AxesBounds.new (AxisRange.new 0 100) (AxisRange.new 0 100))
            (GridModel.mk (10, 10) true [0] [0])).update_scale (0, 0)
            (800, 600)).axes_bounds.transform_point_reverse_f64
            ((AxesModel.new (AxesBounds.new (AxisRange.new 0 100) (AxisRange.new 0 100))
              (GridModel.mk (10, 10) true [0] [0])).update_scale (0, 0)
              (800, 600)).pixel_bounds (400, 300)).2 +
          ((((AxesModel.new (AxesBounds.new (AxisRange.new 0 100) (AxisRange.new 0 100))
            (GridModel.mk (10, 10) true [0] [0])).update_scale (0, 0)
            (800, 600)).axes_bounds.y.min_to_base) -
            (((AxesModel.new (AxesBounds.new (AxisRange.new 0 100) (AxisRange.new 0 100))
              (GridModel.mk (10, 10) true [0] [0])).update_scale (0, 0)
              (800, 600)).axes_bounds.transform_point_reverse_f64
              ((AxesModel.new (AxesBounds.new (AxisRange.new 0 100) (AxisRange.new 0 100))
                (GridModel.mk (10, 10) true [0] [0])).update_scale (0, 0)
                (800, 600)).pixel_bounds (400, 300)).2) * (1 + 2))
        ((((AxesModel.new (AxesBounds.new (AxisRange.new 0 100) (AxisRange.new 0 100))
            (GridModel.mk (10, 10) true [0] [0])).update_scale (0, 0)
            (800, 600)).axes_bounds.transform_point_reverse_f64
            ((AxesModel.new (AxesBounds.new (AxisRange.new 0 100) (AxisRange.new 0 100))
              (GridModel.mk (10, 10) true [0] [0])).update_scale (0, 0)
              (800, 600)).pixel_bounds (400, 300)).2 +
          ((((AxesModel.new (AxesBounds.new (AxisRange.new 0 100) (AxisRange.new 0 100))
            (GridModel.mk (10, 10) true [0] [0])).update_scale (0, 0)
            (800, 600)).axes_bounds.y.max_to_base) -
            (((AxesModel.new (AxesBounds.new (AxisRange.new 0 100) (AxisRange.new 0 100))
              (GridModel.mk (10, 10) true [0] [0])).update_scale (0, 0)
              (800, 600)).axes_bounds.transform_point_reverse_f64
              ((AxesModel.new (AxesBounds.new (AxisRange.new 0 100) (AxisRange.new 0 100))
                (GridModel.mk (10, 10) true [0] [0])).update_scale (0, 0)
                (800, 600)).pixel_bounds (400, 300)).2) * (1 + 2)))) :=
  ⟨rfl, zoom_applies_one_plus_delta _ (400, 300) 2 rfl⟩

end GpuiPlot
